import Mathlib

/-!
Verification development for the Smart-Nix-OS repository.

The Python sources under `src/` are shallowly embedded as executable Lean
definitions.  External processes (git, nix-instantiate, nixos-rebuild, the
LLM providers, the shell) are modelled as explicit oracle parameters; every
embedded function is a pure state transformer over the data the original
code manipulates.  String primitives used by the Python code (`in`,
`startswith`, `lower`, `strip`, `split`, `replace`, slicing) are
re-implemented below over `List Char` so that all proofs reduce in the
kernel; the embedded strings are ASCII, where these implementations agree
with Python's semantics.
-/

/-- Python whitespace characters (ASCII fragment, as used by `str.strip`
and `str.split()` on the strings occurring in this code base). -/
def isPyWs (c : Char) : Bool := c = ' ' || c = '\t' || c = '\n' || c = '\r'

/-- Python `str.strip()`: drop leading and trailing whitespace. -/
def pyStrip (s : String) : String :=
  ⟨((s.data.dropWhile isPyWs).reverse.dropWhile isPyWs).reverse⟩

/-- ASCII lowercasing, matching Python `str.lower()` on ASCII input. -/
def lowerChar (c : Char) : Char :=
  if 'A' ≤ c ∧ c ≤ 'Z' then Char.ofNat (c.toNat + 32) else c

/-- Python `str.lower()` (ASCII). -/
def strLower (s : String) : String := ⟨s.data.map lowerChar⟩

/-- Index of the first occurrence of `sep` inside `l`, if any. -/
def idxOfOccur (sep : List Char) : List Char → Option Nat
  | [] => if sep.isEmpty then some 0 else none
  | c :: t =>
    if sep.isPrefixOf (c :: t) then some 0
    else (idxOfOccur sep t).map (· + 1)

/-- Python `needle in hay` (substring containment). -/
def strContains (hay needle : String) : Bool :=
  (idxOfOccur needle.data hay.data).isSome

/-- Python `hay.startswith(needle)`. -/
def strStarts (hay needle : String) : Bool := needle.data.isPrefixOf hay.data

/-- Python string slicing `s[n:]` (by code point). -/
def pyDrop (s : String) (n : Nat) : String := ⟨s.data.drop n⟩

/-- Helper for `pyReplace`: replace non-overlapping occurrences left to
right, with fuel for structural termination. -/
def replList (sep repl : List Char) : Nat → List Char → List Char
  | 0, l => l
  | _, [] => []
  | fuel + 1, c :: t =>
    if sep.isPrefixOf (c :: t) then repl ++ replList sep repl fuel ((c :: t).drop sep.length)
    else c :: replList sep repl fuel t

/-- Python `s.replace(old, new)` for nonempty `old` (all occurrences,
left to right, non-overlapping). -/
def pyReplace (s old new : String) : String :=
  if old.data.isEmpty then s
  else ⟨replList old.data new.data s.data.length s.data⟩

/-- Python `s.split(c)` for a single-character separator: exact split at
every occurrence, keeping empty pieces. -/
def splitChar (sep : Char) : List Char → List (List Char)
  | [] => [[]]
  | c :: t =>
    match splitChar sep t with
    | [] => [[c]]
    | h :: rt => if c = sep then [] :: h :: rt else (c :: h) :: rt

/-- Lines of a string, Python `s.split('\n')`. -/
def pyLines (s : String) : List String := (splitChar '\n' s.data).map (⟨·⟩)

/-- Helper for `pySplitWs` with fuel. -/
def wsSplitF : Nat → List Char → List (List Char)
  | 0, _ => []
  | _, [] => []
  | fuel + 1, c :: t =>
    if isPyWs c then wsSplitF fuel t
    else ((c :: t).takeWhile (fun d => !isPyWs d)) :: wsSplitF fuel ((c :: t).dropWhile (fun d => !isPyWs d))

/-- Python `s.split()` with no argument: split on whitespace runs,
dropping empty pieces. -/
def pySplitWs (s : String) : List String := (wsSplitF s.data.length s.data).map (⟨·⟩)

/-- Code-point lexicographic order on char lists (Python `str` order). -/
def charListLe : List Char → List Char → Bool
  | [], _ => true
  | _ :: _, [] => false
  | a :: as, b :: bs =>
    if a.toNat < b.toNat then true
    else if b.toNat < a.toNat then false
    else charListLe as bs

/-- Python `<=` on strings (code-point lexicographic). -/
def strLe (a b : String) : Bool := charListLe a.data b.data

/-- Insert into a list sorted by `le` (stable). -/
def sortInsert (le : α → α → Bool) (x : α) : List α → List α
  | [] => [x]
  | y :: t => if le x y then x :: y :: t else y :: sortInsert le x t

/-- Insertion sort, modelling Python `sorted`. -/
def insSort (le : α → α → Bool) : List α → List α
  | [] => []
  | x :: t => sortInsert le x (insSort le t)

/-- Association-list lookup (models a keyed store such as the on-disk
cache directory or the working tree). -/
def assocLookup [DecidableEq κ] (k : κ) : List (κ × α) → Option α
  | [] => none
  | (k', v) :: t => if k' = k then some v else assocLookup k t

/-- Association-list insert/overwrite (new binding shadows any older one). -/
def assocInsert [DecidableEq κ] (k : κ) (v : α) (l : List (κ × α)) : List (κ × α) :=
  (k, v) :: l

/-- Context mapping extracted from a message (`dict` of entity lists in the
Python code: keys such as "packages" and "components"). -/
abbrev Ctx : Type := List (String × List String)

namespace DecisionEngine

/-- `DecisionEngine.declarative_keywords` (src/ai-agent/decision_engine.py:14). -/
def declarative_keywords : List String :=
  ["install", "add", "remove", "uninstall", "configure", "setup",
   "change", "modify", "update", "enable", "disable", "set",
   "create", "delete", "edit", "customize", "theme", "wallpaper"]

/-- `DecisionEngine.imperative_keywords` (src/ai-agent/decision_engine.py:20). -/
def imperative_keywords : List String :=
  ["open", "launch", "start", "run", "execute", "show", "display",
   "play", "stop", "close", "quit", "exit", "restart", "reload",
   "screenshot", "record", "capture", "search", "find", "look"]

/-- `DecisionEngine.hybrid_keywords` (src/ai-agent/decision_engine.py:26). -/
def hybrid_keywords : List String :=
  ["install and open", "add and launch", "setup and start",
   "configure and run", "install then open"]

/-- `DecisionEngine._calculate_score`: count keywords occurring as
substrings of the (already lowercased) message. -/
def calculate_score (message : String) (keywords : List String) : Nat :=
  (keywords.filter (fun k => strContains message k)).length

/-- The intent dictionary returned by the decision engine, with one
optional field per key that any branch may set.  Confidence literals are
embedded as exact rationals. -/
structure Intent where
  type : String
  confidence : Rat
  target_files : List String := []
  context : Ctx := []
  command : Option String := none
  declarative_part : Option String := none
  imperative_part : Option String := none
  message : Option String := none
deriving DecidableEq, Repr

/-- `DecisionEngine._extract_target_files` (decision_engine.py:101). -/
def extract_target_files (message : String) : List String :=
  let config_files : List String :=
    ["configuration.nix", "hardware-configuration.nix", "home.nix",
     "desktop.nix", "laptop.nix"]
  let files := (config_files.filter (fun f => strContains (strLower message) f)).map
    (fun f => "/etc/nixos/" ++ f)
  if files.isEmpty then ["/etc/nixos/configuration.nix"] else files

/-- Word character for the regex word boundary, Python `\w` (ASCII). -/
def isWordChar (c : Char) : Bool := c.isAlphanum || c = '_'

/-- Character class `[a-zA-Z0-9-]` of the package regex. -/
def isTokDash (c : Char) : Bool := c.isAlphanum || c = '-'

/-- Longest valid match length for the package-name regex
`\b([a-zA-Z0-9][a-zA-Z0-9-]*[a-zA-Z0-9])\b` inside the maximal
`[a-zA-Z0-9-]` run `run` (first char alphanumeric), where `after` is the
character following the run.  Greedy matching with backtracking on the
trailing `[a-zA-Z0-9]\b`: the longest prefix of length `≥ 2` ending in an
alphanumeric character and followed by a word boundary. -/
def matchEndLen (run : List Char) (after : Option Char) : Option Nat :=
  go run.length
where
  go : Nat → Option Nat
  | 0 => none
  | 1 => none
  | l + 2 =>
    let last := run.getD (l + 1) ' '
    let next : Option Char := if l + 2 < run.length then some (run.getD (l + 2) ' ') else after
    let boundary := match next with
      | none => true
      | some c => !isWordChar c
    if last.isAlphanum && boundary then some (l + 2) else go (l + 1)

/-- `re.findall` for the package-name pattern: scan left to right, emit
the group of each leftmost-greedy match and continue after it.  `prev` is
the character before the scan position (for the leading `\b`). -/
def findPackages : Nat → Option Char → List Char → List String
  | 0, _, _ => []
  | _, _, [] => []
  | fuel + 1, prev, c :: t =>
    let boundaryHere := match prev with
      | none => true
      | some p => !isWordChar p
    if boundaryHere && c.isAlphanum then
      let run := (c :: t).takeWhile isTokDash
      let after := ((c :: t).drop run.length).head?
      match matchEndLen run after with
      | some l =>
        (⟨run.take l⟩ : String) ::
          findPackages fuel (some (run.getD (l - 1) ' ')) ((c :: t).drop l)
      | none => findPackages fuel (some c) t
    else findPackages fuel (some c) t

/-- `DecisionEngine._extract_context` (decision_engine.py:124): package
tokens via the regex above, plus fixed component markers. -/
def extract_context (message : String) : Ctx :=
  let packages := findPackages message.data.length none message.data
  let base : Ctx := if packages.isEmpty then [] else [("packages", packages)]
  let components :=
    (if strContains (strLower message) "hyprland" then ["hyprland"] else []) ++
    (if strContains (strLower message) "waybar" then ["waybar"] else []) ++
    (if strContains (strLower message) "rofi" then ["rofi"] else []) ++
    (if strContains (strLower message) "theme" then ["theming"] else [])
  base ++ (if components.isEmpty then [] else [("components", components)])

/-- `DecisionEngine._extract_command` (decision_engine.py:150): lowercase,
strip the first matching polite-request opener, then strip whitespace. -/
def extract_command (message : String) : String :=
  let politeOpeners : List String :=
    ["please", "can you", "could you", "would you", "i want to"]
  let command := strLower message
  match politeOpeners.find? (fun p => strStarts command p) with
  | some p => pyStrip (pyDrop command p.data.length)
  | none => command

/-- Split a string at the first occurrence of `sep` (Python
`s.split(sep, 1)` when `sep` occurs). -/
def splitOnce (s sep : String) : String × String :=
  match idxOfOccur sep.data s.data with
  | some i => (⟨s.data.take i⟩, ⟨s.data.drop (i + sep.data.length)⟩)
  | none => (s, "")

/-- `DecisionEngine._split_hybrid_message` (decision_engine.py:163). -/
def split_hybrid_message (message : String) : String × String :=
  let conjunctions : List String := [" and ", " then ", " after ", " followed by "]
  match conjunctions.find? (fun cj => strContains (strLower message) cj) with
  | some cj =>
    let parts := splitOnce (strLower message) cj
    (pyStrip parts.1, pyStrip parts.2)
  | none => (message, message)

/-- `DecisionEngine._classify_declarative` (decision_engine.py:59). -/
def classify_declarative (message : String) : Intent :=
  { type := "declarative"
    target_files := extract_target_files message
    context := extract_context message
    confidence := 4/5 }

/-- `DecisionEngine._classify_imperative` (decision_engine.py:71). -/
def classify_imperative (message : String) : Intent :=
  { type := "imperative"
    command := some (extract_command message)
    confidence := 4/5 }

/-- `DecisionEngine._classify_hybrid` (decision_engine.py:81). -/
def classify_hybrid (message : String) : Intent :=
  let parts := split_hybrid_message message
  { type := "hybrid"
    declarative_part := some parts.1
    imperative_part := some parts.2
    confidence := 7/10 }

/-- `DecisionEngine._classify_unknown` (decision_engine.py:93). -/
def classify_unknown (_message : String) : Intent :=
  { type := "unknown"
    confidence := 1/10
    message := some "I\x27m not sure what you want me to do. Please be more specific." }

/-- `DecisionEngine.classify_intent` (decision_engine.py:31): hybrid
phrases first, then keyword scores; imperative only on a strictly higher
nonzero score, declarative whenever its score is positive otherwise,
unknown when both scores are zero. -/
def classify_intent (message : String) : Intent :=
  let message_lower := strLower message
  if hybrid_keywords.any (fun pat => strContains message_lower pat) then
    classify_hybrid message
  else
    let imperative_score := calculate_score message_lower imperative_keywords
    let declarative_score := calculate_score message_lower declarative_keywords
    if imperative_score > declarative_score ∧ imperative_score > 0 then
      classify_imperative message
    else if declarative_score > 0 then
      classify_declarative message
    else
      classify_unknown message

end DecisionEngine

namespace LLMAdapter

/-- The sentinel text meaning "no patch could be produced". -/
def sentinel : String := "UNABLE_TO_GENERATE_PATCH"

/-- The configuration fields consulted by `LLMAdapter` (`config.get`
defaults from src/ai-agent/llm_adapter.py). -/
structure Config where
  llm_provider : String := "openai"
  cache_enabled : Bool := true
deriving DecidableEq, Repr

/-- Outcome of one invocation of the external text-generation
collaborator: raw text, or a provider exception. -/
inductive LLMOutcome where
  | ok (text : String)
  | err (msg : String)
deriving DecidableEq, Repr

/-- The collaborator as an oracle indexed by the number of previous
invocations, so nondeterminism across calls is expressible.  The assembled
prompt (`_create_prompt`, a pure string build from static templates) does
not influence any control flow modelled here, so it is not threaded
through the oracle. -/
abbrev LLMOracle := Nat → LLMOutcome

/-- `LLMAdapter._create_cache_key` (llm_adapter.py:125): the key is the
canonical form of `(sorted(target_files), instruction, context)` with
context keys sorted (`json.dumps(..., sort_keys=True)`).  The md5 digest
of that canonical string is not modelled: only key equality is ever used,
and no claim concerns hash collisions (spec §9 flags them as open). -/
structure CacheKey where
  target_files : List String
  instruction : String
  context : Ctx
deriving DecidableEq, Repr

/-- Build the cache key from a request. -/
def create_cache_key (target_files : List String) (instruction : String)
    (context : Ctx) : CacheKey :=
  { target_files := insSort strLe target_files
    instruction := instruction
    context := insSort (fun a b => strLe a.1 b.1) context }

/-- The on-disk content-addressed cache (one file per key). -/
abbrev Cache := List (CacheKey × String)

/-- `LLMAdapter._get_cached_result` (llm_adapter.py:135). -/
def get_cached_result (cfg : Config) (cache : Cache) (key : CacheKey) : Option String :=
  if cfg.cache_enabled then assocLookup key cache else none

/-- `LLMAdapter._cache_result` (llm_adapter.py:150). -/
def cache_result (cfg : Config) (cache : Cache) (key : CacheKey) (response : String) : Cache :=
  if cfg.cache_enabled then assocInsert key response cache else cache

/-- `LLMAdapter._call_openai` (llm_adapter.py:191): returns the trimmed
response text; any provider exception is caught and mapped to the
sentinel. -/
def call_openai (o : LLMOracle) (n : Nat) : String :=
  match o n with
  | .ok t => pyStrip t
  | .err _ => sentinel

/-- `LLMAdapter._call_gemini` (llm_adapter.py:210): same failure mapping
as the OpenAI path. -/
def call_gemini (o : LLMOracle) (n : Nat) : String :=
  match o n with
  | .ok t => pyStrip t
  | .err _ => sentinel

/-- `LLMAdapter._call_llm` (llm_adapter.py:180).  Result: the returned
text (as `Except`, since an unsupported provider raises `ValueError`),
paired with the number of collaborator invocations performed (1 for a
known provider, 0 otherwise). -/
def call_llm (cfg : Config) (o : LLMOracle) (n : Nat) : Except String String × Nat :=
  if cfg.llm_provider = "openai" then (.ok (call_openai o n), 1)
  else if cfg.llm_provider = "gemini" then (.ok (call_gemini o n), 1)
  else (.error ("Unsupported provider: " ++ cfg.llm_provider), 0)

/-- `LLMAdapter.generate_patch` (llm_adapter.py:98).  State-transformer
form: takes the oracle offset `n` (collaborator invocations so far) and
the cache, returns `(patch text, new cache, collaborator invocations made
by this call)`.  A cached entry is used only when truthy (`if
cached_result:` — `None` and the empty string both miss).  The body runs
under a `try`/`except` that maps the only escaping fault (the unsupported
provider `ValueError`) to the sentinel, skipping the cache write. -/
def generate_patch (cfg : Config) (o : LLMOracle) (n : Nat) (cache : Cache)
    (target_files : List String) (instruction : String) (context : Ctx) :
    String × Cache × Nat :=
  let key := create_cache_key target_files instruction context
  let cached := (get_cached_result cfg cache key).getD ""
  if cached ≠ "" then (cached, cache, 0)
  else
    match call_llm cfg o n with
    | (.error _, _) => (sentinel, cache, 0)
    | (.ok response, k) => (response, cache_result cfg cache key response, k)

end LLMAdapter

namespace Patcher

/-- The configuration repository's working tree: path ↦ file content. -/
abbrev Tree := List (String × String)

/-- A commit, recorded with the snapshot of the tree it captures.  Commit
ids are modelled as positions in the history list. -/
structure Commit where
  message : String
  tree : Tree
deriving DecidableEq, Repr

/-- Git repository state rooted at the configuration tree. -/
structure RepoState where
  tree : Tree
  commits : List Commit
deriving DecidableEq, Repr

/-- `Patcher._extract_file_paths` (src/ai-agent/patcher.py:123): for each
line starting with `diff --git`, whitespace-split and take the fourth
field minus its `b/` prefix. -/
def extract_file_paths (patch : String) : List String :=
  (pyLines patch).foldr (fun line acc =>
    if strStarts line "diff --git" then
      let parts := pySplitWs line
      if parts.length ≥ 4 then pyDrop (parts.getD 3 "") 2 :: acc else acc
    else acc) []

/-- Result dictionary of patch validation. -/
structure VResult where
  valid : Bool
  error : Option String := none
  message : Option String := none
deriving DecidableEq, Repr

/-- External consultations made during validation, recording the
short-circuit order. -/
inductive VEff where
  | gitCheckEff
  | parseEff (path : String)
deriving DecidableEq, Repr

/-- Loop of the patcher method at patcher.py:89 (validating Nix files): for each path
from the diff headers that exists in the current working tree, run the
external syntax checker (`nix-instantiate --parse`); the first nonzero
exit aborts with a Syntax error.  `nix_parse` gives the checker's exit
code and stderr per path. -/
def nix_check_loop (nix_parse : String → Nat × String) (tree : Tree) :
    List String → VResult × List VEff
  | [] => ({ valid := true, message := some "Nix syntax validation successful" }, [])
  | p :: ps =>
    if (assocLookup p tree).isSome then
      let r := nix_parse p
      if r.1 ≠ 0 then
        ({ valid := false, error := some ("Nix syntax error in " ++ p ++ ": " ++ r.2) },
         [.parseEff p])
      else
        let rest := nix_check_loop nix_parse tree ps
        (rest.1, .parseEff p :: rest.2)
    else nix_check_loop nix_parse tree ps

/-- The patcher method at patcher.py:89 that parse-checks the Nix files named by the patch (renamed here to `validate_nix_files`). -/
def validate_nix_files (nix_parse : String → Nat × String) (tree : Tree)
    (patch : String) : VResult × List VEff :=
  nix_check_loop nix_parse tree (extract_file_paths patch)

/-- `Patcher.validate_patch` (patcher.py:41), with `git_check` the
external `git apply --check` (exit code and stderr as a function of patch
and working tree — a read-only dry run).  Returns the result and the
trace of external consultations, in order. -/
def validate_patch (git_check : String → Tree → Nat × String)
    (nix_parse : String → Nat × String) (tree : Tree) (patch : String) :
    VResult × List VEff :=
  if patch = LLMAdapter.sentinel then
    ({ valid := false, error := some "LLM unable to generate patch" }, [])
  else if pyStrip patch = "" then
    ({ valid := false, error := some "Empty patch" }, [])
  else
    let g := git_check patch tree
    if g.1 ≠ 0 then
      ({ valid := false, error := some ("Git apply check failed: " ++ g.2) }, [.gitCheckEff])
    else
      let nv := validate_nix_files nix_parse tree patch
      if nv.1.valid = false then (nv.1, .gitCheckEff :: nv.2)
      else ({ valid := true, message := some "Patch validation successful" },
            .gitCheckEff :: nv.2)

/-- Result dictionary of `apply_patch` / `revert_last_commit`. -/
structure AResult where
  success : Bool
  error : Option String := none
  message : Option String := none
  commit_hash : Option Nat := none
deriving DecidableEq, Repr

/-- `Patcher.apply_patch` (patcher.py:135).  `git_apply` is the external
`git apply` binary: on success it yields the new working tree; on failure
it applies nothing (git apply is atomic without `--reject`) and yields its
stderr.  On success the changes are staged and committed (`index.add`
followed by `index.commit("ai: " + message)`). -/
def apply_patch (git_apply : String → Tree → Except String Tree)
    (patch message : String) (st : RepoState) : AResult × RepoState :=
  match git_apply patch st.tree with
  | .error e =>
    ({ success := false, error := some ("Failed to apply patch: " ++ e) }, st)
  | .ok newTree =>
    let commit : Commit := { message := "ai: " ++ message, tree := newTree }
    ({ success := true, commit_hash := some st.commits.length,
       message := some "Patch applied successfully" },
     { tree := newTree, commits := commit :: st.commits })

/-- `Patcher.revert_last_commit` (patcher.py:174).  `git revert HEAD
--no-edit` creates a new forward commit undoing HEAD (restoring the
parent's snapshot for the single-commit diffs produced by `apply_patch`);
any exception — including an external revert failure, modelled by
`revert_fails` — is caught and reported as `success = false` with the
state unchanged. -/
def revert_last_commit (revert_fails : Bool) (st : RepoState) : AResult × RepoState :=
  match st.commits with
  | [] => ({ success := false, error := some "revert failed" }, st)
  | _head :: rest =>
    if revert_fails then ({ success := false, error := some "revert failed" }, st)
    else
      let parentTree := ((rest.head?).map Commit.tree).getD []
      let commit : Commit := { message := "Revert last commit", tree := parentTree }
      ({ success := true, message := some "Reverted commit" },
       { tree := parentTree, commits := commit :: st.commits })

/-- Primitive operations performed by the patcher, at the granularity of
its external/state effects.  Lock operations are included in the type so
that their absence from the code's traces is expressible — `Patcher`
(patcher.py:16) creates no lock and its methods acquire none. -/
inductive PatcherEff where
  | runGitApply (patch : String)
  | indexAdd
  | commitEff (message : String)
  | gitRevert
  | lockAcquire
  | lockRelease
deriving DecidableEq, Repr

/-- The sequence of effects `apply_patch` performs (patcher.py:135-165):
`git apply`, then — only if it succeeded — stage and commit.  No
synchronization primitive appears anywhere in the method. -/
def apply_patch_effects (patch message : String) (applyOk : Bool) : List PatcherEff :=
  if applyOk then [.runGitApply patch, .indexAdd, .commitEff ("ai: " ++ message)]
  else [.runGitApply patch]

/-- The sequence of effects `revert_last_commit` performs
(patcher.py:174-195): the single `git revert`; again no synchronization
primitive. -/
def revert_last_commit_effects : List PatcherEff := [.gitRevert]

/-- Is an effect a critical-section operation? -/
def isLockEff : PatcherEff → Bool
  | .lockAcquire => true
  | .lockRelease => true
  | _ => false

/-- A merged schedule of two tasks (`true` = first task, `false` = second
task): check it is an interleaving of the two effect lists. -/
def isInterleaving (xs ys : List PatcherEff) (merged : List (Bool × PatcherEff)) : Bool :=
  decide ((merged.filter (·.1)).map (·.2) = xs) &&
  decide ((merged.filter (fun s => !s.1)).map (·.2) = ys)

/-- Lock-semantics feasibility of a schedule: a task may not step while
the other holds the lock; `lockAcquire` takes it, `lockRelease` frees it.
Traces with no lock operations are trivially feasible everywhere. -/
def lockFeasible : Option Bool → List (Bool × PatcherEff) → Bool
  | _, [] => true
  | owner, (tid, e) :: rest =>
    match owner with
    | some o =>
      if o ≠ tid then false
      else
        let owner' := if e = .lockRelease then none else some o
        lockFeasible owner' rest
    | none =>
      let owner' := if e = .lockAcquire then some tid else none
      lockFeasible owner' rest

/-- A schedule violates apply/revert mutual exclusion when a step of the
second task occurs strictly between two steps of the first. -/
def violatesMutex (merged : List (Bool × PatcherEff)) : Bool :=
  match merged with
  | [] => false
  | (tid, _) :: rest =>
    tid && rest.any (fun s => !s.1) && ((rest.reverse.head?.map (·.1)).getD false)

end Patcher

/-- Outcome of one external shell/process invocation. -/
inductive SysOutcome where
  | completed (rc : Nat) (stdout : String) (stderr : String)
  | timedOut
  | exc (msg : String)
deriving DecidableEq, Repr

/-- The operating system as an oracle: outcome per command string. -/
abbrev SysOracle := String → SysOutcome

namespace Executor

/-- Result dictionary of the agent-side executor
(src/ai-agent/executor.py): optional keys are `none` when the branch that
produced the dictionary did not set them. -/
structure AgentResult where
  success : Bool
  output : String
  error : String
  return_code : Option Nat := none
deriving DecidableEq, Repr

/-- `Executor._run_user_command` (src/ai-agent/executor.py:41): run the
command as-is with a 300-second timeout; success iff exit code 0; a
timeout is caught and reported, never raised.  Also returns the list of
(shell command, timeout seconds) invocations performed. -/
def run_user_command (os : SysOracle) (command : String) :
    AgentResult × List (String × Nat) :=
  match os command with
  | .completed rc out err =>
    ({ success := rc == 0, output := out, error := err, return_code := some rc },
     [(command, 300)])
  | .timedOut =>
    ({ success := false, error := "Command timed out", output := "" }, [(command, 300)])
  | .exc m =>
    ({ success := false, error := m, output := "" }, [(command, 300)])

/-- `Executor._run_system_command` (src/ai-agent/executor.py:76): prefix
the command with `sudo ` and run it with a 300-second timeout; success
iff exit code 0; a timeout is caught and reported. -/
def run_system_command (os : SysOracle) (command : String) :
    AgentResult × List (String × Nat) :=
  let sudo_command := "sudo " ++ command
  match os sudo_command with
  | .completed rc out err =>
    ({ success := rc == 0, output := out, error := err, return_code := some rc },
     [(sudo_command, 300)])
  | .timedOut =>
    ({ success := false, error := "Command timed out", output := "" },
     [(sudo_command, 300)])
  | .exc m =>
    ({ success := false, error := m, output := "" }, [(sudo_command, 300)])

/-- `Executor.run_command` (src/ai-agent/executor.py:20): dispatch on the
`user` flag (default `False`, i.e. the sudo path); no denylist and no
validation of any kind precede execution. -/
def run_command (os : SysOracle) (command : String) (user : Bool := false) :
    AgentResult × List (String × Nat) :=
  if user then run_user_command os command
  else run_system_command os command

/-- Result dictionary of `Executor.test_build`. -/
structure BuildRes where
  success : Bool
  output : Option String := none
  error : Option String := none
  message : Option String := none
deriving DecidableEq, Repr

/-- Outcome of the external `nixos-rebuild test` invocation. -/
abbrev BuildOutcome := SysOutcome

/-- `Executor.test_build` (src/ai-agent/executor.py:110): exit 0 is
success with stdout; nonzero is failure with stderr; the 30-minute
timeout expiry and any exception are caught and reported as failure. -/
def test_build (build : BuildOutcome) : BuildRes :=
  match build with
  | .completed rc out err =>
    if rc == 0 then
      { success := true, output := some out,
        message := some "Configuration build successful" }
    else { success := false, error := some err, output := some out }
  | .timedOut =>
    { success := false, error := some "Build test timed out after 30 minutes" }
  | .exc m => { success := false, error := some m }

end Executor

namespace CommandExecutor

/-- `CommandExecutor.dangerous_commands` (src/ai/executor.py:24). -/
def dangerous_commands : List String :=
  ["rm -rf /", "dd if=/dev/zero", "mkfs", "fdisk", "parted", "wipefs",
   "shutdown", "reboot", "halt", "poweroff"]

/-- `CommandExecutor._is_dangerous_command`'s pattern list
(src/ai/executor.py:90); each entry is matched as a literal substring of
the lowercased command (including the two entries containing `.*`). -/
def dangerous_patterns : List String :=
  ["rm -rf", "dd if=", "mkfs", "fdisk", "parted", "wipefs", "shutdown",
   "reboot", "halt", "poweroff", "> /dev/", "| sh", "curl.*| bash",
   "wget.*| sh"]

/-- `CommandExecutor.validation_commands` (src/ai/executor.py:38). -/
def validation_commands : List String :=
  ["nixos-rebuild", "nix-env", "systemctl", "service", "systemd"]

/-- `CommandExecutor._is_dangerous_command` (src/ai/executor.py:81). -/
def is_dangerous_command (command : String) : Bool :=
  let command_lower := strLower command
  dangerous_commands.any (fun d => strContains command_lower d) ||
  dangerous_patterns.any (fun p => strContains command_lower p)

/-- `CommandExecutor._requires_validation` (src/ai/executor.py:113). -/
def requires_validation (command : String) : Bool :=
  validation_commands.any (fun v => strStarts (strLower command) v)

/-- Result dictionary of the gate-side executor (src/ai/executor.py). -/
structure CmdResult where
  success : Bool
  error : Option String := none
  command : Option String := none
  return_code : Option Nat := none
  stdout : Option String := none
  stderr : Option String := none
  test_output : Option String := none
deriving DecidableEq, Repr

/-- `CommandExecutor._execute_command` (src/ai/executor.py:169): run the
shell command with the given timeout; success iff exit code 0; a timeout
or exception is caught and reported.  Also returns the (command, timeout)
invocations performed.  (The log-file path included in the Python result
dictionary is plumbing and is not modelled.) -/
def execute_command (os : SysOracle) (command : String) (timeout : Nat) :
    CmdResult × List (String × Nat) :=
  match os command with
  | .completed rc out err =>
    ({ success := rc == 0, command := some command, return_code := some rc,
       stdout := some out, stderr := some err }, [(command, timeout)])
  | .timedOut =>
    ({ success := false,
       error := some ("Command timed out after " ++ toString timeout ++ " seconds"),
       command := some command }, [(command, timeout)])
  | .exc m =>
    ({ success := false, error := some m, command := some command },
     [(command, timeout)])

/-- `CommandExecutor._validate_nixos_rebuild` (src/ai/executor.py:138):
for a switch-class command (contains `switch`, does not contain `test`),
first run the command with every `switch` replaced by `test` under a
600-second timeout; if that fails, report the fixed error with the test
run's stderr (or `""` when its result has no stderr key) in
`test_output`. -/
def validate_nixos_rebuild (os : SysOracle) (command : String) :
    CmdResult × List (String × Nat) :=
  if strContains command "switch" ∧ ¬ strContains command "test" then
    let test_command := pyReplace command "switch" "test"
    let t := execute_command os test_command 600
    if t.1.success = false then
      ({ success := false, error := some "NixOS configuration test failed",
         test_output := some (t.1.stderr.getD "") }, t.2)
    else ({ success := true }, t.2)
  else ({ success := true }, [])

/-- `CommandExecutor._validate_systemctl` (src/ai/executor.py:158). -/
def validate_systemctl (command : String) : CmdResult :=
  if strContains command "stop" ∧ strContains command "nixos-ai" then
    { success := false, error := some "Cannot stop the AI assistant service" }
  else { success := true }

/-- `CommandExecutor._validate_command` (src/ai/executor.py:123). -/
def validate_command (os : SysOracle) (command : String) :
    CmdResult × List (String × Nat) :=
  let command_lower := strLower command
  if strContains command_lower "nixos-rebuild" then validate_nixos_rebuild os command
  else if strContains command_lower "systemctl" then (validate_systemctl command, [])
  else ({ success := true }, [])

/-- `CommandExecutor.run_command` (src/ai/executor.py:46): deny
denylisted commands before anything runs; pre-validate risky prefixes
(aborting, with the validation result, before the real command when
validation fails); otherwise execute with the given timeout (default
300 seconds). -/
def run_command (os : SysOracle) (command : String) (timeout : Nat := 300) :
    CmdResult × List (String × Nat) :=
  if is_dangerous_command command then
    ({ success := false, error := some "Command is considered dangerous and blocked",
       command := some command }, [])
  else if requires_validation command then
    let v := validate_command os command
    if v.1.success = false then v
    else
      let r := execute_command os command timeout
      (r.1, v.2 ++ r.2)
  else execute_command os command timeout

end CommandExecutor

namespace Agent

/-- Response dictionary assembled by `NixOSAIAgent._handle_declarative` /
`_handle_imperative` (src/ai-agent/agent.py). -/
structure Response where
  status : String
  error : Option String := none
  suggestion : Option String := none
  patch : Option String := none
  commit_hash : Option Nat := none
  message : Option String := none
  output : Option String := none
deriving DecidableEq, Repr

/-- All external collaborators of the declarative pipeline, as oracles:
the text-generation collaborator, the read-only `git apply --check` dry
run, the syntax checker, the mutating `git apply`, the build check
outcome, and whether the external `git revert` fails. -/
structure Oracles where
  llm : LLMAdapter.LLMOracle
  git_check : String → Patcher.Tree → Nat × String
  nix_parse : String → Nat × String
  git_apply : String → Patcher.Tree → Except String Patcher.Tree
  build : Executor.BuildOutcome
  revert_fails : Bool

/-- Everything `_handle_declarative` produces: the response, the final
repository state, the final cache, and how many revert attempts were
made. -/
structure DeclOut where
  resp : Response
  st : Patcher.RepoState
  cache : LLMAdapter.Cache
  revert_attempts : Nat
deriving Repr

/-- `NixOSAIAgent._handle_declarative` (src/ai-agent/agent.py:109):
generate → sentinel check → validate → apply → build test → on build
failure revert once (its result is not inspected) and surface the build
error with a fallback suggestion; on build success report the commit. -/
def handle_declarative (cfg : LLMAdapter.Config) (o : Oracles)
    (cache : LLMAdapter.Cache) (intent : DecisionEngine.Intent)
    (message : String) (st : Patcher.RepoState) : DeclOut :=
  let gen := LLMAdapter.generate_patch cfg o.llm 0 cache intent.target_files
    message intent.context
  let patch := gen.1
  let cache' := gen.2.1
  if patch = LLMAdapter.sentinel then
    { resp := { status := "error",
                error := some "Unable to generate patch for this request" }
      st := st, cache := cache', revert_attempts := 0 }
  else
    let v := Patcher.validate_patch o.git_check o.nix_parse st.tree patch
    if v.1.valid = false then
      { resp := { status := "error",
                  error := some ("Patch validation failed: " ++ (v.1.error.getD "")) }
        st := st, cache := cache', revert_attempts := 0 }
    else
      let a := Patcher.apply_patch o.git_apply patch message st
      if a.1.success = false then
        { resp := { status := "error",
                    error := some ("Patch application failed: " ++ (a.1.error.getD "")) }
          st := a.2, cache := cache', revert_attempts := 0 }
      else
        let b := Executor.test_build o.build
        if b.success = false then
          let r := Patcher.revert_last_commit o.revert_fails a.2
          { resp := { status := "error",
                      error := some ("Build failed: " ++ (b.error.getD ""))
                      suggestion := some "Consider using fallback installation methods" }
            st := r.2, cache := cache', revert_attempts := 1 }
        else
          { resp := { status := "success", patch := some patch,
                      commit_hash := a.1.commit_hash,
                      message := some "Configuration updated successfully" }
            st := a.2, cache := cache', revert_attempts := 0 }

/-- `NixOSAIAgent._handle_imperative` (src/ai-agent/agent.py:166): take
the classified command (falling back to the raw message) and run it
through the agent-side executor — the `user` flag is left at its default,
so the sudo path with no denylist. -/
def handle_imperative (os : SysOracle) (intent : DecisionEngine.Intent)
    (message : String) : Response × List (String × Nat) :=
  let command := intent.command.getD message
  let r := Executor.run_command os command
  ({ status := if r.1.success then "success" else "error",
     output := some r.1.output,
     error := some r.1.error,
     message := some ("Executed: " ++ command) }, r.2)

end Agent

/-- Modelled from the spec (§4.3 step 3), for comparison with the code's
validator: the syntax check as the spec words it parses "every file path
referenced in the patch's diff headers that exists after hypothetical
application of the patch", succeeding iff every such path passes the
checker.  `postTree` is the working tree after hypothetical application. -/
def validate_parse_spec (nix_parse : String → Nat × String)
    (postTree : Patcher.Tree) (patch : String) : Bool :=
  (Patcher.extract_file_paths patch).all
    (fun p => (!(assocLookup p postTree).isSome) || ((nix_parse p).1 == 0))

/-! ### Concrete fixtures used by witnesses and counterexamples -/

/-- An operating system in which every command exits 0. -/
def osAllOk : SysOracle := fun _ => .completed 0 "out" ""

/-- An operating system in which `nixos-rebuild test` fails with stderr
`boom` and every other command exits 0. -/
def osRebuildTestFails : SysOracle := fun cmd =>
  if cmd = "nixos-rebuild test" then .completed 1 "" "boom" else .completed 0 "" ""

/-- The default adapter configuration (openai provider, caching on). -/
def cfgDefault : LLMAdapter.Config := {}

/-- A configuration selecting the unimplemented `local` provider. -/
def cfgLocal : LLMAdapter.Config := { llm_provider := "local" }

/-- A collaborator that always returns the empty string. -/
def llmEmpty : LLMAdapter.LLMOracle := fun _ => .ok ""

/-- A collaborator that always returns one fixed well-formed diff. -/
def llmPatch : LLMAdapter.LLMOracle := fun _ => .ok "diff --git a/x.nix b/x.nix"

/-- A collaborator that always returns the text `patch`. -/
def llmConst : LLMAdapter.LLMOracle := fun _ => .ok "patch"

/-- A declarative intent with default target files and context. -/
def intentDecl : DecisionEngine.Intent := { type := "declarative", confidence := 4/5 }

/-- A repository holding only its baseline commit. -/
def repo0 : Patcher.RepoState :=
  { tree := [], commits := [{ message := "Initial NixOS configuration", tree := [] }] }

/-- Oracles for a run in which the patch generates, validates and applies
but the build check fails with stderr `boom`; `rf` selects whether the
subsequent `git revert` fails. -/
def oraclesBuildFail (rf : Bool) : Agent.Oracles :=
  { llm := llmPatch
    git_check := fun _ _ => (0, "")
    nix_parse := fun _ => (0, "")
    git_apply := fun _ t => .ok (("x.nix", "changed") :: t)
    build := .completed 1 "" "boom"
    revert_fails := rf }

/-- Oracles whose collaborator uses the unimplemented provider path (the
generation step yields the sentinel). -/
def oraclesNoPatch : Agent.Oracles :=
  { llm := llmEmpty
    git_check := fun _ _ => (0, "")
    nix_parse := fun _ => (0, "")
    git_apply := fun _ t => .ok t
    build := .completed 0 "" ""
    revert_fails := false }

/-- A dry-run check that always passes. -/
def gitCheckOk : String → Patcher.Tree → Nat × String := fun _ _ => (0, "")

/-- A syntax checker that rejects `new.nix` and accepts everything else. -/
def nixParseNewBad : String → Nat × String :=
  fun p => if p = "new.nix" then (1, "syntax err") else (0, "")

/-- A patch whose only diff header introduces the new file `new.nix`. -/
def newFilePatch : String := "diff --git a/new.nix b/new.nix"

/-- The tree after hypothetically applying `newFilePatch` to the empty
tree: the new file exists. -/
def postTreeNew : Patcher.Tree := [("new.nix", "bad")]

/-- The `git apply` behaviour of `newFilePatch`: creates `new.nix`. -/
def gitApplyNew : String → Patcher.Tree → Except String Patcher.Tree :=
  fun _ _ => .ok postTreeNew

/-! ### Helper lemmas -/

/-- A prefix of a char list is an infix of it. -/
theorem idxOfOccur_of_isPrefixOf (sep l : List Char) (h : sep.isPrefixOf l = true) :
    (idxOfOccur sep l).isSome = true := by
  cases l with
  | nil =>
    cases sep with
    | nil => simp [idxOfOccur]
    | cons c t => simp [List.isPrefixOf] at h
  | cons c t => simp [idxOfOccur, h]

/-- Python `needle in hay` holds whenever `hay.startswith(needle)`. -/
theorem strContains_of_strStarts (hay needle : String)
    (h : strStarts hay needle = true) : strContains hay needle = true :=
  idxOfOccur_of_isPrefixOf needle.data hay.data h

/-- The syntax loop accepts exactly when every diff-target path that
exists in the current tree passes the checker. -/
theorem nix_check_loop_valid_iff (np : String → Nat × String)
    (tree : Patcher.Tree) (L : List String) :
    (Patcher.nix_check_loop np tree L).1.valid = true ↔
      ∀ p ∈ L, (assocLookup p tree).isSome = true → (np p).1 = 0 := by
  induction L with
  | nil => simp [Patcher.nix_check_loop]
  | cons p ps ih =>
    by_cases hex : (assocLookup p tree).isSome = true
    · by_cases hrc : (np p).1 = 0
      · simp [Patcher.nix_check_loop, hex, hrc, ih]
      · simp [Patcher.nix_check_loop, hex, hrc]
    · simp only [Bool.not_eq_true] at hex
      simp [Patcher.nix_check_loop, hex, ih]

/-! ### C1 — denylist enforcement -/

/-- C1 counterexample: the claim quantifies over "any caller", but the
executor the orchestrator actually uses (`Executor.run_command`,
src/ai-agent/executor.py) performs no denylist check: for the denylisted
command `rm -rf /` it executes `sudo rm -rf /` and even reports success
when the process exits 0, instead of returning a denied result. -/
theorem denylist_not_enforced_for_agent_executor :
    CommandExecutor.is_dangerous_command "rm -rf /" = true ∧
    (Executor.run_command osAllOk "rm -rf /").2 = [("sudo rm -rf /", 300)] ∧
    (Executor.run_command osAllOk "rm -rf /").1.success = true := by
  refine ⟨by decide, rfl, rfl⟩

/-- C1 (amended): every command matching the fixed denylist is denied by
`CommandExecutor.run_command` (src/ai/executor.py) before anything runs —
the result is the blocked error and no process is spawned, for every
operating-system behaviour and timeout argument (the gate takes no
privilege parameter, so no privilege level can bypass it).  The executor
used by the orchestrator (src/ai-agent/executor.py) performs no such
check. -/
theorem gate_denies_denylisted_commands (os : SysOracle) (c : String) (t : Nat)
    (h : CommandExecutor.is_dangerous_command c = true) :
    CommandExecutor.run_command os c t =
      ({ success := false, error := some "Command is considered dangerous and blocked",
         command := some c }, []) := by
  simp [CommandExecutor.run_command, h]

/-- C1 witness: the gate denies `rm -rf /` without executing anything. -/
theorem gate_denies_denylisted_commands_witness :
    CommandExecutor.run_command osAllOk "rm -rf /" 300 =
      ({ success := false, error := some "Command is considered dangerous and blocked",
         command := some "rm -rf /" }, []) :=
  gate_denies_denylisted_commands osAllOk "rm -rf /" 300 (by decide)

/-! ### C4 — tie handling in intent classification -/

/-- C4 counterexample: "install open" has no hybrid phrase and its
imperative and declarative scores tie at 1 (both nonzero), yet
`classify_intent` returns a declarative intent with confidence 0.8 — not
the `unknown`/0.1 result the claim requires for every tie. -/
theorem nonzero_tie_classified_declarative :
    DecisionEngine.hybrid_keywords.any
      (fun pat => strContains (strLower "install open") pat) = false ∧
    DecisionEngine.calculate_score (strLower "install open")
        DecisionEngine.imperative_keywords =
      DecisionEngine.calculate_score (strLower "install open")
        DecisionEngine.declarative_keywords ∧
    DecisionEngine.calculate_score (strLower "install open")
      DecisionEngine.declarative_keywords = 1 ∧
    (DecisionEngine.classify_intent "install open").type = "declarative" ∧
    (DecisionEngine.classify_intent "install open").confidence = 4/5 := by
  refine ⟨by decide, by decide, by decide, rfl, rfl⟩

/-- C4 (amended): for a message with no hybrid phrase and tied scores,
`classify_intent` returns `unknown` with confidence 0.1 and the
explanatory message only when both scores are zero; a nonzero tie is
classified declarative (confidence 0.8), because imperative needs a
strictly higher score while declarative wins on any positive score
otherwise. -/
theorem tie_unknown_only_when_both_zero (m : String)
    (hh : DecisionEngine.hybrid_keywords.any
      (fun pat => strContains (strLower m) pat) = false)
    (ht : DecisionEngine.calculate_score (strLower m) DecisionEngine.imperative_keywords =
          DecisionEngine.calculate_score (strLower m) DecisionEngine.declarative_keywords) :
    (DecisionEngine.calculate_score (strLower m) DecisionEngine.declarative_keywords = 0 →
       DecisionEngine.classify_intent m = DecisionEngine.classify_unknown m) ∧
    (DecisionEngine.calculate_score (strLower m) DecisionEngine.declarative_keywords ≠ 0 →
       (DecisionEngine.classify_intent m).type = "declarative" ∧
       (DecisionEngine.classify_intent m).confidence = 4/5) ∧
    (DecisionEngine.classify_unknown m).confidence = 1/10 ∧
    (DecisionEngine.classify_unknown m).message =
      some "I\x27m not sure what you want me to do. Please be more specific." := by
  refine ⟨?_, ?_, rfl, rfl⟩
  · intro hz
    have hi : DecisionEngine.calculate_score (strLower m)
        DecisionEngine.imperative_keywords = 0 := by rw [ht, hz]
    simp [DecisionEngine.classify_intent, hh, hi, hz]
  · intro hnz
    have hgt : ¬ (DecisionEngine.calculate_score (strLower m)
          DecisionEngine.imperative_keywords >
        DecisionEngine.calculate_score (strLower m)
          DecisionEngine.declarative_keywords) := by
      rw [ht]; exact lt_irrefl _
    simp [DecisionEngine.classify_intent, hh, hgt, Nat.pos_of_ne_zero hnz,
      DecisionEngine.classify_declarative]

/-- C4 witness: the amended theorem applied to "install open". -/
theorem tie_unknown_only_when_both_zero_witness :
    (DecisionEngine.classify_intent "install open").type = "declarative" :=
  (((tie_unknown_only_when_both_zero "install open" (by decide) (by decide)).2.1)
    (by decide)).1

/-! ### C9 — the orchestrator's imperative executor -/

/-- C9: for every command string, the executor used by the orchestrator's
imperative branch (`Executor.run_command` via
`NixOSAIAgent._handle_imperative`) executes exactly `sudo ` + command with
a 300-second timeout — with no denylist or validation step, since this
holds for every command — reports success iff the exit code is 0, and on
timeout returns a `Command timed out` failure instead of raising. -/
theorem imperative_branch_runs_sudo_unvalidated (os : SysOracle)
    (intent : DecisionEngine.Intent) (message : String) :
    (Agent.handle_imperative os intent message).2 =
      [("sudo " ++ (intent.command.getD message), 300)] ∧
    (Executor.run_command os (intent.command.getD message)).2 =
      [("sudo " ++ (intent.command.getD message), 300)] ∧
    (∀ rc out err, os ("sudo " ++ (intent.command.getD message)) = .completed rc out err →
       (Executor.run_command os (intent.command.getD message)).1.success = (rc == 0) ∧
       (Executor.run_command os (intent.command.getD message)).1.output = out ∧
       (Executor.run_command os (intent.command.getD message)).1.error = err) ∧
    (os ("sudo " ++ (intent.command.getD message)) = .timedOut →
       (Executor.run_command os (intent.command.getD message)).1 =
         { success := false, error := "Command timed out", output := "",
           return_code := none }) ∧
    (Agent.handle_imperative os intent message).1.status =
      (if (Executor.run_command os (intent.command.getD message)).1.success
       then "success" else "error") := by
  cases h : os ("sudo " ++ (intent.command.getD message)) <;>
    simp [Agent.handle_imperative, Executor.run_command,
      Executor.run_system_command, h]

/-- C9 witness: a concrete run through the success case. -/
theorem imperative_branch_runs_sudo_unvalidated_witness :
    (Executor.run_command osAllOk
      (({ type := "imperative", confidence := 4/5,
          command := some "rm -rf /" } : DecisionEngine.Intent).command.getD "msg")).1.success =
      (0 == 0) ∧
    (Executor.run_command osAllOk
      (({ type := "imperative", confidence := 4/5,
          command := some "rm -rf /" } : DecisionEngine.Intent).command.getD "msg")).1.output =
      "out" ∧
    (Executor.run_command osAllOk
      (({ type := "imperative", confidence := 4/5,
          command := some "rm -rf /" } : DecisionEngine.Intent).command.getD "msg")).1.error =
      "" :=
  (imperative_branch_runs_sudo_unvalidated osAllOk
    { type := "imperative", confidence := 4/5, command := some "rm -rf /" }
    "msg").2.2.1 0 "out" "" rfl

/-! ### C10 — apply/revert mutual exclusion -/

/-- C10 counterexample: the effect traces of `apply_patch` and
`revert_last_commit` contain no lock operation, and a schedule placing
the revert strictly inside an apply is an interleaving of the two traces
that is feasible under lock semantics — no per-repository critical
section makes apply and revert mutually exclusive. -/
theorem apply_revert_interleaving_counterexample :
    Patcher.isInterleaving (Patcher.apply_patch_effects "p" "m" true)
      Patcher.revert_last_commit_effects
      [(true, .runGitApply "p"), (false, .gitRevert), (true, .indexAdd),
       (true, .commitEff "ai: m")] = true ∧
    Patcher.lockFeasible none
      [(true, .runGitApply "p"), (false, .gitRevert), (true, .indexAdd),
       (true, .commitEff "ai: m")] = true ∧
    Patcher.violatesMutex
      [(true, .runGitApply "p"), (false, .gitRevert), (true, .indexAdd),
       (true, .commitEff "ai: m")] = true ∧
    (Patcher.apply_patch_effects "p" "m" true).filter Patcher.isLockEff = [] ∧
    Patcher.revert_last_commit_effects.filter Patcher.isLockEff = [] := by decide

/-- C10 (amended): `Patcher` provides no critical section — for every
patch, message and apply outcome, the effect traces of `apply_patch` and
`revert_last_commit` contain no lock acquire/release, and consequently a
lock-feasible interleaving exists in which a revert step occurs strictly
between apply steps.  Mutual exclusion, when observed, comes only from
the single-threaded event loop (neither coroutine suspends internally),
not from any per-repository critical section in the code. -/
theorem patcher_performs_no_lock_operations (patch message : String) (applyOk : Bool) :
    ((Patcher.apply_patch_effects patch message applyOk).filter Patcher.isLockEff = [] ∧
     Patcher.revert_last_commit_effects.filter Patcher.isLockEff = []) ∧
    ∃ merged, Patcher.isInterleaving (Patcher.apply_patch_effects patch message true)
        Patcher.revert_last_commit_effects merged = true ∧
      Patcher.lockFeasible none merged = true ∧
      Patcher.violatesMutex merged = true := by
  refine ⟨⟨?_, by decide⟩,
    ⟨[(true, .runGitApply patch), (false, .gitRevert), (true, .indexAdd),
      (true, .commitEff ("ai: " ++ message))], ?_, ?_, ?_⟩⟩
  · cases applyOk <;> simp [Patcher.apply_patch_effects, Patcher.isLockEff]
  · simp [Patcher.isInterleaving, Patcher.apply_patch_effects,
      Patcher.revert_last_commit_effects]
  · rfl
  · rfl

/-! ### C2 — revert on build failure -/

/-- C2 counterexample: with the build check failing, a run whose revert
fails produces exactly the same response as a run whose revert succeeds —
`_handle_declarative` never inspects the revert result, so a revert
failure is not reported distinctly from the ordinary build-failure error
(it is silently swallowed, though never reported as success). -/
theorem revert_failure_response_indistinguishable :
    (Agent.handle_declarative cfgDefault (oraclesBuildFail true) [] intentDecl "m" repo0).resp =
      (Agent.handle_declarative cfgDefault (oraclesBuildFail false) [] intentDecl "m" repo0).resp ∧
    (Agent.handle_declarative cfgDefault (oraclesBuildFail true) [] intentDecl "m" repo0).resp.status =
      "error" ∧
    (Agent.handle_declarative cfgDefault (oraclesBuildFail true) [] intentDecl "m" repo0).resp.error =
      some "Build failed: boom" ∧
    (Agent.handle_declarative cfgDefault (oraclesBuildFail true) [] intentDecl "m" repo0).revert_attempts =
      1 := by
  refine ⟨rfl, rfl, rfl, rfl⟩

/-- C2 (amended): whenever a patch has been applied and the build check
fails, exactly one automatic revert attempt is made and the build error is
surfaced with the fallback suggestion; the revert attempt's outcome is
ignored — the response is identical whether the revert succeeds or fails,
so revert failure is never reported as success but also never reported
distinctly. -/
theorem build_failure_single_revert_ignored (cfg : LLMAdapter.Config)
    (o : Agent.Oracles) (cache : LLMAdapter.Cache)
    (intent : DecisionEngine.Intent) (message : String) (st : Patcher.RepoState)
    (hgen : (LLMAdapter.generate_patch cfg o.llm 0 cache intent.target_files
      message intent.context).1 ≠ LLMAdapter.sentinel)
    (hval : (Patcher.validate_patch o.git_check o.nix_parse st.tree
      (LLMAdapter.generate_patch cfg o.llm 0 cache intent.target_files
        message intent.context).1).1.valid = true)
    (happ : (Patcher.apply_patch o.git_apply
      (LLMAdapter.generate_patch cfg o.llm 0 cache intent.target_files
        message intent.context).1 message st).1.success = true)
    (hbuild : (Executor.test_build o.build).success = false) :
    (Agent.handle_declarative cfg o cache intent message st).revert_attempts = 1 ∧
    (Agent.handle_declarative cfg o cache intent message st).resp.status = "error" ∧
    (Agent.handle_declarative cfg o cache intent message st).resp.error =
      some ("Build failed: " ++ ((Executor.test_build o.build).error.getD "")) ∧
    (Agent.handle_declarative cfg o cache intent message st).resp.suggestion =
      some "Consider using fallback installation methods" ∧
    ∀ b : Bool,
      (Agent.handle_declarative cfg { o with revert_fails := b } cache intent
        message st).resp =
      (Agent.handle_declarative cfg o cache intent message st).resp := by
  refine ⟨?_, ?_, ?_, ?_, ?_⟩ <;>
    simp [Agent.handle_declarative, hgen, hval, happ, hbuild]

/-- C2 witness: the amended theorem at a concrete build-failure run. -/
theorem build_failure_single_revert_ignored_witness :
    (Agent.handle_declarative cfgDefault (oraclesBuildFail true) [] intentDecl "m"
      repo0).revert_attempts = 1 :=
  (build_failure_single_revert_ignored cfgDefault (oraclesBuildFail true) []
    intentDecl "m" repo0 (by decide) (by decide) (by decide) (by decide)).1

/-! ### C3 — no repository mutation before a successful apply -/

/-- C3: whenever the declarative pipeline fails strictly before a
successful apply — the generated patch is the sentinel, validation
rejects it, or the `git apply` step fails (git apply is atomic, so a
failed apply writes nothing) — the repository state (working tree and
commit history) is left exactly as it was. -/
theorem pipeline_failure_before_apply_leaves_repo_unchanged
    (cfg : LLMAdapter.Config) (o : Agent.Oracles) (cache : LLMAdapter.Cache)
    (intent : DecisionEngine.Intent) (message : String) (st : Patcher.RepoState)
    (h : (LLMAdapter.generate_patch cfg o.llm 0 cache intent.target_files
        message intent.context).1 = LLMAdapter.sentinel ∨
      (Patcher.validate_patch o.git_check o.nix_parse st.tree
        (LLMAdapter.generate_patch cfg o.llm 0 cache intent.target_files
          message intent.context).1).1.valid = false ∨
      (Patcher.apply_patch o.git_apply
        (LLMAdapter.generate_patch cfg o.llm 0 cache intent.target_files
          message intent.context).1 message st).1.success = false) :
    (Agent.handle_declarative cfg o cache intent message st).st = st := by
  by_cases hs : (LLMAdapter.generate_patch cfg o.llm 0 cache intent.target_files
      message intent.context).1 = LLMAdapter.sentinel
  · simp [Agent.handle_declarative, hs]
  · by_cases hv : (Patcher.validate_patch o.git_check o.nix_parse st.tree
        (LLMAdapter.generate_patch cfg o.llm 0 cache intent.target_files
          message intent.context).1).1.valid = false
    · simp [Agent.handle_declarative, hs, hv]
    · rcases h with h | h | h
      · exact absurd h hs
      · exact absurd h hv
      · have hstate : (Patcher.apply_patch o.git_apply
            (LLMAdapter.generate_patch cfg o.llm 0 cache intent.target_files
              message intent.context).1 message st).2 = st := by
          unfold Patcher.apply_patch at h ⊢
          cases hga : o.git_apply (LLMAdapter.generate_patch cfg o.llm 0 cache
              intent.target_files message intent.context).1 st.tree with
          | error e => simp [hga]
          | ok t => rw [hga] at h; simp at h
        simp [Agent.handle_declarative, hs, hv, h, hstate]

/-- C3 witness: with the unimplemented provider the generation step
yields the sentinel and the repository is untouched. -/
theorem pipeline_failure_before_apply_leaves_repo_unchanged_witness :
    (Agent.handle_declarative cfgLocal oraclesNoPatch [] intentDecl "m" repo0).st =
      repo0 :=
  pipeline_failure_before_apply_leaves_repo_unchanged cfgLocal oraclesNoPatch []
    intentDecl "m" repo0 (Or.inl (by decide))

/-! ### C5 — cache idempotence of patch generation -/

/-- Looking up a key right after caching a value under it hits, when
caching is enabled. -/
theorem get_cached_after_insert (cfg : LLMAdapter.Config) (c : LLMAdapter.Cache)
    (k : LLMAdapter.CacheKey) (v : String) (hc : cfg.cache_enabled = true) :
    LLMAdapter.get_cached_result cfg (LLMAdapter.cache_result cfg c k v) k = some v := by
  simp [LLMAdapter.get_cached_result, LLMAdapter.cache_result, assocInsert,
    assocLookup, hc]

/-- C5 counterexample: with caching enabled and the collaborator
returning the empty string, two successive identical calls return
identical text but invoke the collaborator twice — an empty response is
cached yet never served (`if cached_result:` treats it as a miss), so
"at most once" fails. -/
theorem empty_collaborator_response_defeats_cache :
    cfgDefault.cache_enabled = true ∧
    (LLMAdapter.generate_patch cfgDefault llmEmpty
        (LLMAdapter.generate_patch cfgDefault llmEmpty 0 [] ["a"] "x" []).2.2
        (LLMAdapter.generate_patch cfgDefault llmEmpty 0 [] ["a"] "x" []).2.1
        ["a"] "x" []).1 =
      (LLMAdapter.generate_patch cfgDefault llmEmpty 0 [] ["a"] "x" []).1 ∧
    (LLMAdapter.generate_patch cfgDefault llmEmpty 0 [] ["a"] "x" []).2.2 +
      (LLMAdapter.generate_patch cfgDefault llmEmpty
        (LLMAdapter.generate_patch cfgDefault llmEmpty 0 [] ["a"] "x" []).2.2
        (LLMAdapter.generate_patch cfgDefault llmEmpty 0 [] ["a"] "x" []).2.1
        ["a"] "x" []).2.2 = 2 := by
  refine ⟨rfl, rfl, rfl⟩

/-- C5 (amended): with caching enabled, whenever the first call's result
is non-empty, a second call with the identical `(targetFiles,
instruction, context)` returns identical patch text and the external
collaborator is invoked at most once across the two calls; only an empty
first result (which the truthiness test refuses to serve from cache)
re-invokes the collaborator. -/
theorem cached_generate_idempotent (cfg : LLMAdapter.Config)
    (o : LLMAdapter.LLMOracle) (c0 : LLMAdapter.Cache) (tf : List String)
    (inst : String) (ctx : Ctx) (hc : cfg.cache_enabled = true)
    (hne : (LLMAdapter.generate_patch cfg o 0 c0 tf inst ctx).1 ≠ "") :
    (LLMAdapter.generate_patch cfg o
        (LLMAdapter.generate_patch cfg o 0 c0 tf inst ctx).2.2
        (LLMAdapter.generate_patch cfg o 0 c0 tf inst ctx).2.1 tf inst ctx).1 =
      (LLMAdapter.generate_patch cfg o 0 c0 tf inst ctx).1 ∧
    (LLMAdapter.generate_patch cfg o 0 c0 tf inst ctx).2.2 +
      (LLMAdapter.generate_patch cfg o
        (LLMAdapter.generate_patch cfg o 0 c0 tf inst ctx).2.2
        (LLMAdapter.generate_patch cfg o 0 c0 tf inst ctx).2.1 tf inst ctx).2.2 ≤ 1 := by
  by_cases hmiss : (LLMAdapter.get_cached_result cfg c0
      (LLMAdapter.create_cache_key tf inst ctx)).getD "" = ""
  · by_cases hop : cfg.llm_provider = "openai"
    · have h1 : LLMAdapter.generate_patch cfg o 0 c0 tf inst ctx =
          (LLMAdapter.call_openai o 0,
           LLMAdapter.cache_result cfg c0 (LLMAdapter.create_cache_key tf inst ctx)
             (LLMAdapter.call_openai o 0), 1) := by
        simp [LLMAdapter.generate_patch, hmiss, LLMAdapter.call_llm, hop]
      rw [h1] at hne ⊢
      have h2 := get_cached_after_insert cfg c0
        (LLMAdapter.create_cache_key tf inst ctx) (LLMAdapter.call_openai o 0) hc
      simp only at hne
      simp [LLMAdapter.generate_patch, h2, hne]
    · by_cases hg : cfg.llm_provider = "gemini"
      · have h1 : LLMAdapter.generate_patch cfg o 0 c0 tf inst ctx =
            (LLMAdapter.call_gemini o 0,
             LLMAdapter.cache_result cfg c0 (LLMAdapter.create_cache_key tf inst ctx)
               (LLMAdapter.call_gemini o 0), 1) := by
          simp [LLMAdapter.generate_patch, hmiss, LLMAdapter.call_llm, hop, hg]
        rw [h1] at hne ⊢
        have h2 := get_cached_after_insert cfg c0
          (LLMAdapter.create_cache_key tf inst ctx) (LLMAdapter.call_gemini o 0) hc
        simp only at hne
        simp [LLMAdapter.generate_patch, h2, hne]
      · have h1 : LLMAdapter.generate_patch cfg o 0 c0 tf inst ctx =
            (LLMAdapter.sentinel, c0, 0) := by
          simp [LLMAdapter.generate_patch, hmiss, LLMAdapter.call_llm, hop, hg]
        rw [h1]
        simp [LLMAdapter.generate_patch, hmiss, LLMAdapter.call_llm, hop, hg]
  · simp [LLMAdapter.generate_patch, hmiss]

/-- C5 witness: a deterministic collaborator returning a non-empty text —
the second call is a cache hit and the collaborator ran once. -/
theorem cached_generate_idempotent_witness :
    (LLMAdapter.generate_patch cfgDefault llmConst
        (LLMAdapter.generate_patch cfgDefault llmConst 0 [] ["a"] "x" []).2.2
        (LLMAdapter.generate_patch cfgDefault llmConst 0 [] ["a"] "x" []).2.1
        ["a"] "x" []).1 =
      (LLMAdapter.generate_patch cfgDefault llmConst 0 [] ["a"] "x" []).1 ∧
    (LLMAdapter.generate_patch cfgDefault llmConst 0 [] ["a"] "x" []).2.2 +
      (LLMAdapter.generate_patch cfgDefault llmConst
        (LLMAdapter.generate_patch cfgDefault llmConst 0 [] ["a"] "x" []).2.2
        (LLMAdapter.generate_patch cfgDefault llmConst 0 [] ["a"] "x" []).2.1
        ["a"] "x" []).2.2 ≤ 1 :=
  cached_generate_idempotent cfgDefault llmConst [] ["a"] "x" [] rfl (by decide)

/-! ### C6 — patch generation never raises -/

/-- C6: `generate_patch` maps every failure of the external collaborator
to the sentinel instead of propagating a fault: on a cache miss, an
unknown/unsupported provider (whose `ValueError` is the only fault that
reaches the top-level handler), a provider exception, and the
collaborator explicitly declining all yield `UNABLE_TO_GENERATE_PATCH`;
the function is total, so no input makes it raise. -/
theorem generate_patch_failures_map_to_sentinel (cfg : LLMAdapter.Config)
    (o : LLMAdapter.LLMOracle) (n : Nat) (cache : LLMAdapter.Cache)
    (tf : List String) (inst : String) (ctx : Ctx)
    (hmiss : (LLMAdapter.get_cached_result cfg cache
      (LLMAdapter.create_cache_key tf inst ctx)).getD "" = "") :
    ((cfg.llm_provider ≠ "openai" ∧ cfg.llm_provider ≠ "gemini") →
       (LLMAdapter.generate_patch cfg o n cache tf inst ctx).1 =
         LLMAdapter.sentinel) ∧
    (∀ e, o n = .err e →
       (LLMAdapter.generate_patch cfg o n cache tf inst ctx).1 =
         LLMAdapter.sentinel) ∧
    (o n = .ok LLMAdapter.sentinel →
       (LLMAdapter.generate_patch cfg o n cache tf inst ctx).1 =
         LLMAdapter.sentinel) := by
  have hstrip : pyStrip LLMAdapter.sentinel = LLMAdapter.sentinel := by decide
  refine ⟨?_, ?_, ?_⟩
  · intro hp
    simp [LLMAdapter.generate_patch, hmiss, LLMAdapter.call_llm, hp.1, hp.2]
  · intro e he
    by_cases hop : cfg.llm_provider = "openai"
    · simp [LLMAdapter.generate_patch, hmiss, LLMAdapter.call_llm, hop,
        LLMAdapter.call_openai, he]
    · by_cases hg : cfg.llm_provider = "gemini"
      · simp [LLMAdapter.generate_patch, hmiss, LLMAdapter.call_llm, hop, hg,
          LLMAdapter.call_gemini, he]
      · simp [LLMAdapter.generate_patch, hmiss, LLMAdapter.call_llm, hop, hg]
  · intro hd
    by_cases hop : cfg.llm_provider = "openai"
    · simp [LLMAdapter.generate_patch, hmiss, LLMAdapter.call_llm, hop,
        LLMAdapter.call_openai, hd, hstrip]
    · by_cases hg : cfg.llm_provider = "gemini"
      · simp [LLMAdapter.generate_patch, hmiss, LLMAdapter.call_llm, hop, hg,
          LLMAdapter.call_gemini, hd, hstrip]
      · simp [LLMAdapter.generate_patch, hmiss, LLMAdapter.call_llm, hop, hg]

/-- C6 witness: the unsupported `local` provider yields the sentinel. -/
theorem generate_patch_failures_map_to_sentinel_witness :
    (LLMAdapter.generate_patch cfgLocal llmEmpty 0 [] ["a"] "i" []).1 =
      LLMAdapter.sentinel :=
  (generate_patch_failures_map_to_sentinel cfgLocal llmEmpty 0 [] ["a"] "i" []
    (by decide)).1 (by decide)

/-! ### C7 — validation order and syntax-check scope -/

/-- C7 counterexample: `newFilePatch` introduces `new.nix`, which exists
after hypothetical application and fails the syntax checker, so the
claim's syntax check must reject it — yet `validate_patch` returns valid,
because the code only parses paths that already exist in the current
(pre-application) working tree. -/
theorem parse_checked_on_pre_application_tree :
    (Patcher.validate_patch gitCheckOk nixParseNewBad [] newFilePatch).1.valid = true ∧
    Patcher.extract_file_paths newFilePatch = ["new.nix"] ∧
    gitApplyNew newFilePatch [] = .ok postTreeNew ∧
    (assocLookup "new.nix" postTreeNew).isSome = true ∧
    (nixParseNewBad "new.nix").1 = 1 ∧
    validate_parse_spec nixParseNewBad postTreeNew newFilePatch = false := by
  refine ⟨rfl, by decide, rfl, by decide, by decide, by decide⟩

/-- C7 (amended): `validate_patch` runs its checks in order and
short-circuits — sentinel first, then empty/whitespace-only text, then
the dry-run structural check (whose failure carries the git diagnostic
and consults nothing further), and finally a syntax check that parses
every file path referenced in the patch's diff headers that exists in the
current (pre-application) working tree, returning invalid with a Nix
syntax error on any nonzero checker exit. -/
theorem validate_patch_order_and_scope (gc : String → Patcher.Tree → Nat × String)
    (np : String → Nat × String) (tree : Patcher.Tree) (patch : String) :
    (patch = LLMAdapter.sentinel →
       Patcher.validate_patch gc np tree patch =
         ({ valid := false, error := some "LLM unable to generate patch" }, [])) ∧
    (patch ≠ LLMAdapter.sentinel → pyStrip patch = "" →
       Patcher.validate_patch gc np tree patch =
         ({ valid := false, error := some "Empty patch" }, [])) ∧
    (patch ≠ LLMAdapter.sentinel → pyStrip patch ≠ "" → (gc patch tree).1 ≠ 0 →
       Patcher.validate_patch gc np tree patch =
         ({ valid := false,
            error := some ("Git apply check failed: " ++ (gc patch tree).2) },
          [.gitCheckEff])) ∧
    (patch ≠ LLMAdapter.sentinel → pyStrip patch ≠ "" → (gc patch tree).1 = 0 →
       (Patcher.validate_patch gc np tree patch).1.valid =
         (Patcher.validate_nix_files np tree patch).1.valid ∧
       ((Patcher.validate_nix_files np tree patch).1.valid = true ↔
          ∀ p ∈ Patcher.extract_file_paths patch,
            (assocLookup p tree).isSome = true → (np p).1 = 0)) := by
  refine ⟨?_, ?_, ?_, ?_⟩
  · intro h1
    simp [Patcher.validate_patch, h1]
  · intro h1 h2
    simp [Patcher.validate_patch, h1, h2]
  · intro h1 h2 h3
    simp [Patcher.validate_patch, h1, h2, h3]
  · intro h1 h2 h3
    constructor
    · by_cases hnv : (Patcher.validate_nix_files np tree patch).1.valid = false
      · simp [Patcher.validate_patch, h1, h2, h3, hnv]
      · have hnv' : (Patcher.validate_nix_files np tree patch).1.valid = true := by
          simpa using hnv
        simp [Patcher.validate_patch, h1, h2, h3, hnv']
    · exact nix_check_loop_valid_iff np tree (Patcher.extract_file_paths patch)

/-- C7 witness: the amended theorem's first check applied to the
sentinel. -/
theorem validate_patch_order_and_scope_witness :
    Patcher.validate_patch gitCheckOk nixParseNewBad [] LLMAdapter.sentinel =
      ({ valid := false, error := some "LLM unable to generate patch" }, []) :=
  (validate_patch_order_and_scope gitCheckOk nixParseNewBad []
    LLMAdapter.sentinel).1 rfl

/-! ### C8 — pre-flight test before a switch-class rebuild -/

/-- C8 counterexample: for `nixos-rebuild switch` with the internal test
run failing with stderr `boom`, the error reported to the caller is the
fixed string `NixOS configuration test failed` — not the test run's
stderr, which is only attached under `test_output` — and the switch
command is never executed. -/
theorem switch_error_is_fixed_string_not_stderr :
    (CommandExecutor.run_command osRebuildTestFails "nixos-rebuild switch" 300).1.error =
      some "NixOS configuration test failed" ∧
    (CommandExecutor.run_command osRebuildTestFails "nixos-rebuild switch" 300).1.error ≠
      some "boom" ∧
    (CommandExecutor.run_command osRebuildTestFails "nixos-rebuild switch" 300).1.test_output =
      some "boom" ∧
    (CommandExecutor.run_command osRebuildTestFails "nixos-rebuild switch" 300).2 =
      [("nixos-rebuild test", 600)] := by
  refine ⟨rfl, by decide, rfl, rfl⟩

/-- C8 (amended): for every non-denylisted command that starts with the
rebuild tool's name, contains `switch` and does not contain `test`,
`run_command` first executes the command with every `switch` replaced by
`test` (600-second timeout); if that test run fails, the switch command
is never executed and the caller receives `success = false` with the
fixed error `NixOS configuration test failed` and the test run's stderr
(or `""` when its result carries none, e.g. on timeout) in
`test_output`. -/
theorem switch_runs_test_first_fixed_error (os : SysOracle) (cmd : String)
    (hdang : CommandExecutor.is_dangerous_command cmd = false)
    (hstart : strStarts (strLower cmd) "nixos-rebuild" = true)
    (hsw : strContains cmd "switch" = true)
    (hte : strContains cmd "test" = false)
    (ht : (CommandExecutor.execute_command os (pyReplace cmd "switch" "test")
      600).1.success = false) :
    CommandExecutor.run_command os cmd 300 =
      ({ success := false, error := some "NixOS configuration test failed",
         test_output := some ((CommandExecutor.execute_command os
           (pyReplace cmd "switch" "test") 600).1.stderr.getD "") },
       (CommandExecutor.execute_command os
         (pyReplace cmd "switch" "test") 600).2) := by
  have hrv : CommandExecutor.requires_validation cmd = true := by
    simp [CommandExecutor.requires_validation, CommandExecutor.validation_commands,
      hstart]
  have hcont : strContains (strLower cmd) "nixos-rebuild" = true :=
    strContains_of_strStarts (strLower cmd) "nixos-rebuild" hstart
  simp [CommandExecutor.run_command, hdang, hrv, CommandExecutor.validate_command,
    hcont, CommandExecutor.validate_nixos_rebuild, hsw, hte, ht]

/-- C8 witness: the amended theorem at the failing-test fixture. -/
theorem switch_runs_test_first_fixed_error_witness :
    CommandExecutor.run_command osRebuildTestFails "nixos-rebuild switch" 300 =
      ({ success := false, error := some "NixOS configuration test failed",
         test_output := some ((CommandExecutor.execute_command osRebuildTestFails
           (pyReplace "nixos-rebuild switch" "switch" "test") 600).1.stderr.getD "") },
       (CommandExecutor.execute_command osRebuildTestFails
         (pyReplace "nixos-rebuild switch" "switch" "test") 600).2) :=
  switch_runs_test_first_fixed_error osRebuildTestFails "nixos-rebuild switch"
    (by decide) (by decide) (by decide) (by decide) (by decide)
